import Mathlib

/-!
Shallow embedding of the seat-inventory / waitlist engine of the
Train-Reservation-System repository (APP/backend/server.py,
APP/backend/terminal_app.py, APP/backend/data_structures.py).

The state is the per-train projection of the system state: every SQL
statement of the booking/cancellation paths is of the form
`... WHERE train_id = ?` (or `WHERE id = ?` on trains), and the in-memory
structures (trains_linked_list node, waiting_queues[train_id],
passenger_cache entries of this train) are keyed by the same train id, so
one train's slice evolves independently of the others.

  - dbTrain   : the row of the `trains` table (total_seats, available_seats);
                `none` when the row does not exist.  SQLite INTEGER is
                modelled as Int (it may go negative, see update_train).
  - bookings  : the rows of the `bookings` table for this train, in
                insertion order.
  - waitingDB : the rows of the `waiting_list` table for this train, in
                insertion order.
  - memTrain  : the node of trains_linked_list holding this train
                (`none` when absent from the list).
  - memQueue  : waiting_queues[train_id].items; `none` when train_id is
                not a key of the waiting_queues dict.
  - cache     : passenger_cache entries for this train (keyed by PNR).

PNRs are random 10-character strings in the source (generate_pnr); they are
modelled as a caller-supplied identifier, assumed fresh.
-/

namespace Railway

/-- Passenger payload carried by bookings and waitlist entries
(passenger_name, passenger_age, passenger_gender, passenger_phone). -/
structure Passenger where
  name : String
  age : Nat
  gender : String
  phone : String
deriving DecidableEq

/-- A row of the `bookings` table (per-train projection; booking_date and
the surrogate id column are dropped, pnr is the unique key used by the code). -/
structure Booking where
  pnr : Nat
  user_id : Nat
  passenger : Passenger
  seat_number : Int
  booking_status : String
deriving DecidableEq

/-- A row of the `waiting_list` table, and also an element of a
waiting_queues[train_id] Queue.  The in-memory dict enqueued by the
terminal front end has no user_id key, but no terminal code path ever
reads user_id from a queue element, so carrying the field is
observationally faithful there too. -/
structure WEntry where
  user_id : Nat
  passenger : Passenger
  position : Int
deriving DecidableEq

/-- The seat counters of a row of the `trains` table (and of a linked-list
node); the descriptive columns play no role in the allocation logic. -/
structure TrainRec where
  total_seats : Int
  available_seats : Int
deriving DecidableEq

/-- An entry of the passenger_cache dict (server.py line 29): pnr maps to
passenger details plus seat. -/
structure CacheEntry where
  pnr : Nat
  passenger : Passenger
  seat : Int
deriving DecidableEq

/-- Per-train projection of the whole system state (durable tables plus
the in-memory mirror structures). -/
structure State where
  dbTrain : Option TrainRec
  bookings : List Booking
  waitingDB : List WEntry
  memTrain : Option TrainRec
  memQueue : Option (List WEntry)
  cache : List CacheEntry
deriving DecidableEq

/-- The acting principal as decoded from the JWT (user_id, role). -/
structure User where
  id : Nat
  role : String
deriving DecidableEq

/-- Error outcomes of the embedded operations, one per HTTPException /
terminal failure path touched by the claims. -/
inductive Err where
  | trainNotFoundInList
  | trainRowMissing
  | bookingNotFound
  | notAuthorized
  | alreadyCancelled
  | adminRequired
  | trainNotFound
  | queueKeyMissing
deriving DecidableEq

/-- Success / failure outcome of one operation. -/
inductive Outcome where
  | confirmed (pnr : Nat) (seat : Int)
  | waiting (position : Int)
  | released (promoted : Option Nat)
  | updated
  | noUpdates
  | err (e : Err)
deriving DecidableEq

/-- server.py line 608: UPDATE bookings SET booking_status = 'cancelled'
WHERE pnr = ? (same statement in terminal_app.py line 461). -/
def setCancelled (pnr : Nat) (bs : List Booking) : List Booking :=
  bs.map (fun b => if b.pnr = pnr then { b with booking_status := "cancelled" } else b)

/-- server.py lines 642-651 (and terminal_app.py lines 480-483):
DELETE FROM waiting_list WHERE train_id = ? AND position = 1, followed by
UPDATE waiting_list SET position = position - 1 WHERE train_id = ?. -/
def renumber (ws : List WEntry) : List WEntry :=
  (ws.filter (fun w => w.position ≠ 1)).map (fun w => { w with position := w.position - 1 })

/-- server.py create_booking (lines 413-514): check the train in the
linked list, re-read it from the database, then either book (available > 0)
or append to the waiting queue and waiting_list table. -/
def create_booking (s : State) (caller : User) (pnr : Nat) (p : Passenger) :
    Outcome × State :=
  match s.memTrain with
  | none => (.err .trainNotFoundInList, s)
  | some memT =>
    match s.dbTrain with
    | none => (.err .trainRowMissing, s)
    | some db =>
      if 0 < db.available_seats then
        let seat : Int := db.total_seats - db.available_seats + 1
        (.confirmed pnr seat,
          { s with
              bookings := s.bookings ++ [⟨pnr, caller.id, p, seat, "confirmed"⟩],
              dbTrain := some { db with available_seats := db.available_seats - 1 },
              memTrain := some { memT with available_seats := memT.available_seats - 1 },
              cache := s.cache ++ [⟨pnr, p, seat⟩] })
      else
        let q := s.memQueue.getD []
        let position : Int := (q.length : Int) + 1
        let w : WEntry := ⟨caller.id, p, position⟩
        (.waiting position,
          { s with
              memQueue := some (q ++ [w]),
              waitingDB := s.waitingDB ++ [w] })

/-- server.py cancel_booking (lines 582-672): look the booking up by PNR,
check ownership/admin, reject already-cancelled, mark cancelled, then
either promote the head of the in-memory waiting queue (re-using the
vacated seat, deleting position 1 from waiting_list and renumbering) or
increment available_seats in the database and the linked list. -/
def cancel_booking (s : State) (caller : User) (pnr : Nat) (newPnr : Nat) :
    Outcome × State :=
  match s.bookings.find? (fun b => b.pnr = pnr) with
  | none => (.err .bookingNotFound, s)
  | some booking =>
    if booking.user_id ≠ caller.id ∧ caller.role ≠ "admin" then
      (.err .notAuthorized, s)
    else if booking.booking_status = "cancelled" then
      (.err .alreadyCancelled, s)
    else
      let bs := setCancelled pnr s.bookings
      let cache' := s.cache.filter (fun c => c.pnr ≠ pnr)
      match s.memQueue with
      | some (w :: rest) =>
        (.released (some newPnr),
          { s with
              bookings := bs ++ [⟨newPnr, w.user_id, w.passenger, booking.seat_number, "confirmed"⟩],
              cache := cache' ++ [⟨newPnr, w.passenger, booking.seat_number⟩],
              memQueue := some rest,
              waitingDB := renumber s.waitingDB })
      | _ =>
        (.released none,
          { s with
              bookings := bs,
              cache := cache',
              dbTrain := s.dbTrain.map
                (fun db => { db with available_seats := db.available_seats + 1 }),
              memTrain := s.memTrain.map
                (fun t => { t with available_seats := t.available_seats + 1 }) })

/-- server.py update_train (lines 320-380), restricted to the seat-total
field (the other updatable columns do not touch the seat counters).
Python truthiness: `if train_update.total_seats:` skips both None and 0.
The seat branch sets total_seats = new and available_seats += (new - old)
unconditionally; there is no negative-capacity check and the linked-list
mirror is not updated. -/
def update_train (s : State) (caller : User) (newTotal : Option Int) :
    Outcome × State :=
  if caller.role ≠ "admin" then (.err .adminRequired, s)
  else
    match s.dbTrain with
    | none => (.err .trainNotFound, s)
    | some db =>
      match newTotal with
      | some t =>
        if t ≠ 0 then
          (.updated,
            { s with dbTrain := some ⟨t, db.available_seats + (t - db.total_seats)⟩ })
        else (.noUpdates, s)
      | none => (.noUpdates, s)

/-- terminal_app.py RailwayTerminal.book_ticket (lines 274-395): the train
is selected from the linked-list display, re-read from the database, then
either booked (same seat formula) or appended at position
waiting_queues[id].size() + 1; a missing queue key raises KeyError before
any write. -/
def terminal_book_ticket (s : State) (caller : User) (pnr : Nat) (p : Passenger) :
    Outcome × State :=
  match s.memTrain with
  | none => (.err .trainNotFoundInList, s)
  | some memT =>
    match s.dbTrain with
    | none => (.err .trainRowMissing, s)
    | some db =>
      if 0 < db.available_seats then
        let seat : Int := db.total_seats - db.available_seats + 1
        (.confirmed pnr seat,
          { s with
              bookings := s.bookings ++ [⟨pnr, caller.id, p, seat, "confirmed"⟩],
              dbTrain := some { db with available_seats := db.available_seats - 1 },
              memTrain := some { memT with available_seats := memT.available_seats - 1 } })
      else
        match s.memQueue with
        | none => (.err .queueKeyMissing, s)
        | some q =>
          let position : Int := (q.length : Int) + 1
          (.waiting position,
            { s with
                waitingDB := s.waitingDB ++ [⟨caller.id, p, position⟩],
                memQueue := some (q ++ [⟨caller.id, p, position⟩]) })

/-- terminal_app.py RailwayTerminal.cancel_ticket (lines 433-495): the
booking is selected WHERE pnr = ? AND user_id = caller (owner only), then
marked cancelled; if the train id is a key of waiting_queues the head is
dequeued and, when present, promoted — with user_id set to the CALLER
(self.current_user, line 474), not the waitlist entry's holder — else
available_seats is incremented; when the key is absent nothing further
happens.  The linked list is never updated here. -/
def terminal_cancel_ticket (s : State) (caller : User) (pnr : Nat) (newPnr : Nat) :
    Outcome × State :=
  match s.bookings.find? (fun b => b.pnr = pnr ∧ b.user_id = caller.id) with
  | none => (.err .bookingNotFound, s)
  | some booking =>
    if booking.booking_status = "cancelled" then (.err .alreadyCancelled, s)
    else
      let bs := setCancelled pnr s.bookings
      match s.memQueue with
      | none => (.released none, { s with bookings := bs })
      | some [] =>
        (.released none,
          { s with
              bookings := bs,
              dbTrain := s.dbTrain.map
                (fun db => { db with available_seats := db.available_seats + 1 }) })
      | some (w :: rest) =>
        (.released (some newPnr),
          { s with
              bookings := bs ++ [⟨newPnr, caller.id, w.passenger, booking.seat_number, "confirmed"⟩],
              memQueue := some rest,
              waitingDB := renumber s.waitingDB })

/-- One engine call against a single train: Reserve or Release, as issued
through the server front end. -/
inductive Op where
  | reserve (caller : User) (pnr : Nat) (p : Passenger)
  | release (caller : User) (pnr : Nat) (newPnr : Nat)

/-- The state transition of one operation (outcome discarded). -/
def stepOp (s : State) : Op → State
  | .reserve c pnr p => (create_booking s c pnr p).2
  | .release c pnr newPnr => (cancel_booking s c pnr newPnr).2

/-- Run a sequence of Reserve/Release operations. -/
def runOps (s : State) (ops : List Op) : State := ops.foldl stepOp s

/-- A freshly created train (server.py create_train, lines 215-258):
available_seats = total_seats, no bookings, empty waitlist, linked-list
node inserted, waiting_queues[id] initialised to an empty Queue. -/
def freshTrain (total : Int) : State :=
  { dbTrain := some ⟨total, total⟩,
    bookings := [],
    waitingDB := [],
    memTrain := some ⟨total, total⟩,
    memQueue := some [],
    cache := [] }

/-- Seat numbers of the simultaneously active (status 'confirmed')
reservations of the train, in booking order. -/
def activeSeats (s : State) : List Int :=
  (s.bookings.filter (fun b => b.booking_status = "confirmed")).map Booking.seat_number

/-- The durable (database) projection of the per-train state. -/
def durable (s : State) : Option TrainRec × List Booking × List WEntry :=
  (s.dbTrain, s.bookings, s.waitingDB)

/-- The waitlist positions of ws are k, k+1, k+2, … in list order
(so posFrom 1 ws says they form the contiguous sequence 1..n). -/
def posFrom : Int → List WEntry → Prop
  | _, [] => True
  | k, w :: ws => w.position = k ∧ posFrom (k + 1) ws

instance posFromDec : (k : Int) → (ws : List WEntry) → Decidable (posFrom k ws)
  | _, [] => .isTrue trivial
  | k, w :: ws => @instDecidableAnd _ _ (decEq w.position k) (posFromDec (k + 1) ws)

/-- Spec-side comparator (NOT from the code) for the seat-assignment
refinement claim; it follows the spec's words: "assign the lowest seat
number not currently held by an Active reservation for that resource".
The smallest free seat always lies in 1 .. held.length + 1. -/
def spec_smallestFreeSeat (held : List Int) : Int :=
  ((((List.range (held.length + 1)).map (fun i => (i : Int) + 1)).filter
      (fun k => k ∉ held)).headD 1)

/- Concrete fixtures used by counterexamples, failing-input evaluations and
witnesses. -/

/-- A concrete passenger payload. -/
def pA : Passenger := ⟨"Alice", 30, "F", "111"⟩

/-- A concrete passenger payload. -/
def pB : Passenger := ⟨"Bob", 40, "M", "222"⟩

/-- A concrete passenger payload. -/
def pC : Passenger := ⟨"Carol", 25, "F", "333"⟩

/-- A passenger-role principal with id 1. -/
def u1 : User := ⟨1, "passenger"⟩

/-- A passenger-role principal with id 2. -/
def u2 : User := ⟨2, "passenger"⟩

/-- A passenger-role principal with id 3. -/
def u3 : User := ⟨3, "passenger"⟩

/-- An admin-role principal. -/
def adm : User := ⟨9, "admin"⟩

/-- Reserve, Reserve, Release-first, Reserve on a fresh 2-seat train:
the trace on which the code double-assigns seat 2. -/
def C1ops : List Op :=
  [.reserve u1 101 pA, .reserve u2 102 pB, .release u1 101 999, .reserve u3 103 pC]

/-- The state just before the final Reserve of C1ops: seat 1 was vacated by
a cancellation without promotion, seat 2 is still held, available_seats = 1. -/
def C2state : State :=
  runOps (freshTrain 2) [.reserve u1 101 pA, .reserve u2 102 pB, .release u1 101 999]

/-- A confirmed booking of user 1 on seat 1. -/
def bk1 : Booking := ⟨11, 1, pA, 1, "confirmed"⟩

/-- A confirmed booking of user 2 on seat 2. -/
def bk2 : Booking := ⟨12, 2, pB, 2, "confirmed"⟩

/-- A full 2-seat train (2 active reservations, 0 available, no waitlist). -/
def sC3 : State := ⟨some ⟨2, 0⟩, [bk1, bk2], [], some ⟨2, 0⟩, some [], []⟩

/-- A position-1 waitlist entry of user 2. -/
def w2 : WEntry := ⟨2, pB, 1⟩

/-- Full 2-seat train, one active booking, one durable waitlist entry,
in-memory queue IN SYNC with the durable waitlist. -/
def sA9 : State := ⟨some ⟨2, 0⟩, [bk1], [w2], some ⟨2, 0⟩, some [w2], []⟩

/-- Same durable state as sA9 but a stale EMPTY in-memory queue. -/
def sB9 : State := ⟨some ⟨2, 0⟩, [bk1], [w2], some ⟨2, 0⟩, some [], []⟩

/-- Full 1-seat train: user 1 holds the seat, user 2 waits at position 1
(mirror in sync).  Cancelling through the terminal promotes here. -/
def sC5 : State := ⟨some ⟨1, 0⟩, [bk1], [w2], some ⟨1, 0⟩, some [w2], []⟩

/-- Full 1-seat train with an empty waitlist, used as a witness state for
the Release-increments claim. -/
def sRel : State := ⟨some ⟨1, 0⟩, [bk1], [], some ⟨1, 0⟩, some [], []⟩

/-- Inductive invariant carried by every state reachable from a fresh
train through server-side Reserve/Release: the trains row and the
waiting_queues key exist, the in-memory queue has the same length as the
durable waitlist, durable positions are contiguous from 1, and positive
available capacity forces an empty waitlist. -/
def C8Inv (s : State) : Prop :=
  ∃ db q, s.dbTrain = some db ∧ s.memQueue = some q ∧
    q.length = s.waitingDB.length ∧
    posFrom 1 s.waitingDB ∧
    (0 < db.available_seats → s.waitingDB = [])

/-- Every entry of a waitlist whose positions run k, k+1, … has position ≥ k. -/
theorem posFrom_le_position {ws : List WEntry} :
    ∀ {k : Int}, posFrom k ws → ∀ w ∈ ws, k ≤ w.position := by
  induction ws with
  | nil => intro k _ w hw; cases hw
  | cons a as ih =>
    intro k h w hw
    obtain ⟨ha, htail⟩ := h
    rcases List.mem_cons.mp hw with hwa | hwas
    · subst hwa; omega
    · have := ih htail w hwas; omega

/-- Appending an entry whose position is k + length extends a contiguous
position sequence. -/
theorem posFrom_append {ws : List WEntry} :
    ∀ {k : Int}, posFrom k ws → ∀ w : WEntry, w.position = k + ws.length →
      posFrom k (ws ++ [w]) := by
  induction ws with
  | nil => intro k _ w hw; exact ⟨by simpa using hw, trivial⟩
  | cons a as ih =>
    intro k h w hw
    obtain ⟨ha, htail⟩ := h
    refine ⟨ha, ih htail w ?_⟩
    simp only [List.length_cons] at hw
    push_cast at hw ⊢
    omega

/-- Decrementing every position shifts a contiguous sequence down by one. -/
theorem posFrom_map_sub {ws : List WEntry} :
    ∀ {k : Int}, posFrom (k + 1) ws →
      posFrom k (ws.map (fun x => { x with position := x.position - 1 })) := by
  induction ws with
  | nil => intro k _; trivial
  | cons a as ih =>
    intro k h
    obtain ⟨ha, htail⟩ := h
    exact ⟨by simp [ha], ih htail⟩

/-- On a waitlist with contiguous positions 1..n, the SQL pair
(DELETE WHERE position = 1; UPDATE position = position - 1) removes exactly
the head and decrements the survivors. -/
theorem renumber_cons {w : WEntry} {ws : List WEntry} (h : posFrom 1 (w :: ws)) :
    renumber (w :: ws) = ws.map (fun x => { x with position := x.position - 1 }) := by
  obtain ⟨hw, htail⟩ := h
  have hne : ∀ x ∈ ws, ¬ x.position = 1 := by
    intro x hx
    have := posFrom_le_position htail x hx
    omega
  unfold renumber
  rw [List.filter_cons]
  simp only [hw, decide_not]
  rw [if_neg (by simp)]
  congr 1
  rw [List.filter_eq_self]
  intro x hx
  simpa using hne x hx

/-- C1: the claim says active seat numbers stay pairwise distinct within
1..total_seats under any Reserve/Release sequence.  The code violates it:
on a fresh 2-seat train, after Reserve, Reserve, Release-of-seat-1,
Reserve, the two simultaneously confirmed bookings both hold seat 2
(create_booking computes seat = total_seats - available_seats + 1 and
never tracks freed seats, server.py line 436). -/
theorem C1_code_duplicates_seats :
    activeSeats (runOps (freshTrain 2) C1ops) = [2, 2] ∧
    ¬ (activeSeats (runOps (freshTrain 2) C1ops)).Pairwise (· ≠ ·) := by
  constructor
  · rfl
  · decide

/-- C2: the claim says Reserve assigns the smallest positive seat number
not held by an active reservation, re-using freed seats.  The code does
not: in C2state seat 1 is free (only seat 2 is held) yet create_booking
assigns seat 2 = total_seats - available_seats + 1, colliding with the
existing reservation (server.py line 436). -/
theorem C2_code_not_smallest_free :
    (create_booking C2state u3 103 pC).1 = .confirmed 103 2 ∧
    activeSeats C2state = [2] ∧
    spec_smallestFreeSeat (activeSeats C2state) = 1 ∧
    (2 : Int) ≠ 1 := by
  refine ⟨rfl, rfl, rfl, by decide⟩

/-- C3 counterexample: the claim says shrinking total_seats below the
number of held reservations fails with InvalidCapacity and changes
nothing.  The code has no such check (server.py lines 362-377): an admin
update from total 2 to total 1 on a full train (2 active reservations,
0 available) succeeds and drives available_seats to -1. -/
theorem C3_counterexample_no_capacity_check :
    (update_train sC3 adm (some 1)).1 = .updated ∧
    (update_train sC3 adm (some 1)).2.dbTrain = some ⟨1, -1⟩ ∧
    (update_train sC3 adm (some 1)).2 ≠ sC3 := by
  refine ⟨rfl, rfl, by decide⟩

/-- C3 amended: update_train applies the seat delta unconditionally: for
an admin caller, an existing train and a non-zero requested total t, it
succeeds and sets total_seats := t, available_seats := available + (t -
old total), with no InvalidCapacity error even when the result is
negative (the mirror is untouched). -/
theorem C3_amended_update_applies_delta (s : State) (caller : User) (db : TrainRec)
    (t : Int) (hrole : caller.role = "admin") (hdb : s.dbTrain = some db)
    (ht : t ≠ 0) :
    update_train s caller (some t) =
      (.updated, { s with dbTrain := some ⟨t, db.available_seats + (t - db.total_seats)⟩ }) := by
  simp [update_train, hrole, hdb, ht]

/-- C3 amended witness: the amended statement applied to the concrete full
2-seat train shrunk to 1 seat, yielding available_seats = -1. -/
theorem C3_amended_witness :
    update_train sC3 adm (some 1) =
      (.updated, { sC3 with dbTrain := some ⟨1, -1⟩ }) :=
  C3_amended_update_applies_delta sC3 adm ⟨2, 0⟩ 1 rfl rfl (by decide)

/-- C4: releasing a reservation while the waitlist is non-empty (length n)
leaves available_seats untouched (database row and linked-list mirror),
dequeues exactly the position-1 entry, and leaves a waitlist of length
n - 1 with contiguous positions 1..n-1. -/
theorem C4_release_nonempty_waitlist (s : State) (caller : User) (pnr newPnr : Nat)
    (b : Booking) (w : WEntry) (ws : List WEntry)
    (hfind : s.bookings.find? (fun x => x.pnr = pnr) = some b)
    (hauth : b.user_id = caller.id ∨ caller.role = "admin")
    (hstatus : b.booking_status ≠ "cancelled")
    (hq : s.memQueue = some (w :: ws))
    (hcoh : s.waitingDB = w :: ws)
    (hpos : posFrom 1 (w :: ws)) :
    (cancel_booking s caller pnr newPnr).1 = .released (some newPnr) ∧
    (cancel_booking s caller pnr newPnr).2.dbTrain = s.dbTrain ∧
    (cancel_booking s caller pnr newPnr).2.memTrain = s.memTrain ∧
    (cancel_booking s caller pnr newPnr).2.memQueue = some ws ∧
    (cancel_booking s caller pnr newPnr).2.waitingDB =
      ws.map (fun x => { x with position := x.position - 1 }) ∧
    posFrom 1 (cancel_booking s caller pnr newPnr).2.waitingDB ∧
    (cancel_booking s caller pnr newPnr).2.waitingDB.length + 1 = s.waitingDB.length := by
  have hncond : ¬ (b.user_id ≠ caller.id ∧ caller.role ≠ "admin") := by tauto
  have key : cancel_booking s caller pnr newPnr =
      (.released (some newPnr),
        { s with
            bookings := setCancelled pnr s.bookings ++
              [⟨newPnr, w.user_id, w.passenger, b.seat_number, "confirmed"⟩],
            cache := s.cache.filter (fun c => c.pnr ≠ pnr) ++
              [⟨newPnr, w.passenger, b.seat_number⟩],
            memQueue := some ws,
            waitingDB := renumber s.waitingDB }) := by
    simp [cancel_booking, hfind, hncond, hstatus, hq]
  have hren : renumber s.waitingDB =
      ws.map (fun x => { x with position := x.position - 1 }) := by
    rw [hcoh]; exact renumber_cons hpos
  rw [key]
  refine ⟨rfl, rfl, rfl, rfl, hren, ?_, ?_⟩
  · rw [hren]; exact posFrom_map_sub hpos.2
  · rw [hren, hcoh]; simp

/-- C4 witness: on sA9 (one active booking, one waitlist entry, mirror in
sync), the owner's cancellation promotes the only entry and leaves an
empty, trivially contiguous waitlist. -/
theorem C4_witness :
    (cancel_booking sA9 u1 11 50).1 = .released (some 50) ∧
    (cancel_booking sA9 u1 11 50).2.dbTrain = sA9.dbTrain ∧
    (cancel_booking sA9 u1 11 50).2.memTrain = sA9.memTrain ∧
    (cancel_booking sA9 u1 11 50).2.memQueue = some [] ∧
    (cancel_booking sA9 u1 11 50).2.waitingDB =
      ([] : List WEntry).map (fun x => { x with position := x.position - 1 }) ∧
    posFrom 1 (cancel_booking sA9 u1 11 50).2.waitingDB ∧
    (cancel_booking sA9 u1 11 50).2.waitingDB.length + 1 = sA9.waitingDB.length :=
  C4_release_nonempty_waitlist sA9 u1 11 50 bk1 w2 [] rfl (Or.inl rfl) (by decide)
    rfl rfl (by decide)

/-- C5: the claim says a promotion creates the new active reservation for
the dequeued entry's holder (user_id) and payload, re-using the vacated
seat.  server.py does exactly that (first conjunct: the promoted booking
on sC5 carries user_id 2, the waitlisted holder).  terminal_app.py does
not: cancel_ticket inserts the promoted booking with
self.current_user['id'] — the CANCELLING caller, user 1 — instead of the
entry's holder, user 2 (terminal_app.py line 474); payload and seat are
carried, the holder is wrong. -/
theorem C5_terminal_promotes_wrong_holder :
    (cancel_booking sC5 u1 11 50).2.bookings =
      [⟨11, 1, pA, 1, "cancelled"⟩, ⟨50, 2, pB, 1, "confirmed"⟩] ∧
    (terminal_cancel_ticket sC5 u1 11 50).1 = .released (some 50) ∧
    (terminal_cancel_ticket sC5 u1 11 50).2.bookings =
      [⟨11, 1, pA, 1, "cancelled"⟩, ⟨50, 1, pB, 1, "confirmed"⟩] ∧
    w2.user_id = 2 ∧
    sC5.memQueue = some [w2] ∧
    (1 : Nat) ≠ 2 := by
  refine ⟨rfl, rfl, rfl, rfl, rfl, by decide⟩

/-- C6: releasing a reservation while the waitlist is empty (the
waiting_queues key is absent, or present with an empty queue) increments
available_seats by exactly 1 and neither creates nor removes any waitlist
entry; the same holds for the terminal front end when the key is present
with an empty queue (the head conjunct is server.py cancel_booking, the
tail implication is terminal_app.py cancel_ticket). -/
theorem C6_release_empty_waitlist (s : State) (caller : User) (pnr newPnr : Nat)
    (b : Booking) (db : TrainRec)
    (hfind : s.bookings.find? (fun x => x.pnr = pnr) = some b)
    (hauth : b.user_id = caller.id ∨ caller.role = "admin")
    (hstatus : b.booking_status ≠ "cancelled")
    (hdb : s.dbTrain = some db)
    (hq : s.memQueue = none ∨ s.memQueue = some []) :
    ((cancel_booking s caller pnr newPnr).1 = .released none ∧
     (cancel_booking s caller pnr newPnr).2.dbTrain =
       some { db with available_seats := db.available_seats + 1 } ∧
     (cancel_booking s caller pnr newPnr).2.waitingDB = s.waitingDB ∧
     (cancel_booking s caller pnr newPnr).2.memQueue = s.memQueue) ∧
    (s.bookings.find? (fun x => x.pnr = pnr ∧ x.user_id = caller.id) = some b →
     s.memQueue = some [] →
     (terminal_cancel_ticket s caller pnr newPnr).1 = .released none ∧
     (terminal_cancel_ticket s caller pnr newPnr).2.dbTrain =
       some { db with available_seats := db.available_seats + 1 } ∧
     (terminal_cancel_ticket s caller pnr newPnr).2.waitingDB = s.waitingDB ∧
     (terminal_cancel_ticket s caller pnr newPnr).2.memQueue = s.memQueue) := by
  have hncond : ¬ (b.user_id ≠ caller.id ∧ caller.role ≠ "admin") := by tauto
  constructor
  · rcases hq with hq | hq <;>
      simp [cancel_booking, hfind, hncond, hstatus, hq, hdb]
  · intro hfind2 hq2
    simp only [Bool.decide_and] at hfind2
    simp [terminal_cancel_ticket, hfind2, hstatus, hq2, hdb]

/-- C6 witness: the owner cancels the only booking of a full 1-seat train
with an empty waitlist; available_seats goes 0 to 1 in both front ends. -/
theorem C6_witness :
    (cancel_booking sRel u1 11 50).1 = .released none ∧
    (cancel_booking sRel u1 11 50).2.dbTrain = some ⟨1, 1⟩ ∧
    (cancel_booking sRel u1 11 50).2.waitingDB = sRel.waitingDB ∧
    (cancel_booking sRel u1 11 50).2.memQueue = sRel.memQueue ∧
    (terminal_cancel_ticket sRel u1 11 50).1 = .released none ∧
    (terminal_cancel_ticket sRel u1 11 50).2.dbTrain = some ⟨1, 1⟩ ∧
    (terminal_cancel_ticket sRel u1 11 50).2.waitingDB = sRel.waitingDB ∧
    (terminal_cancel_ticket sRel u1 11 50).2.memQueue = sRel.memQueue := by
  have h := C6_release_empty_waitlist sRel u1 11 50 bk1 ⟨1, 0⟩ rfl (Or.inl rfl)
    (by decide) rfl (Or.inr rfl)
  obtain ⟨⟨h1, h2, h3, h4⟩, h5⟩ := h
  obtain ⟨h6, h7, h8, h9⟩ := h5 rfl rfl
  exact ⟨h1, h2, h3, h4, h6, h7, h8, h9⟩

/-- C7: Reserve against an existing train with available_seats = 0 and a
waitlist of length n (mirror queue in sync with the durable table)
returns Waitlisted with position n + 1, appends exactly one entry with
that position to the durable waitlist and the queue, and leaves the seat
counters and bookings untouched — in both front ends. -/
theorem C7_reserve_full_train_waitlists (s : State) (caller : User) (pnr : Nat)
    (p : Passenger) (db memT : TrainRec) (q : List WEntry)
    (hdb : s.dbTrain = some db)
    (hmem : s.memTrain = some memT)
    (havail : db.available_seats = 0)
    (hq : s.memQueue = some q)
    (hlen : s.waitingDB.length = q.length) :
    (create_booking s caller pnr p).1 = .waiting ((s.waitingDB.length : Int) + 1) ∧
    (create_booking s caller pnr p).2.waitingDB =
      s.waitingDB ++ [⟨caller.id, p, (s.waitingDB.length : Int) + 1⟩] ∧
    (create_booking s caller pnr p).2.memQueue =
      some (q ++ [⟨caller.id, p, (s.waitingDB.length : Int) + 1⟩]) ∧
    (create_booking s caller pnr p).2.dbTrain = s.dbTrain ∧
    (create_booking s caller pnr p).2.memTrain = s.memTrain ∧
    (create_booking s caller pnr p).2.bookings = s.bookings ∧
    (terminal_book_ticket s caller pnr p).1 = .waiting ((s.waitingDB.length : Int) + 1) ∧
    (terminal_book_ticket s caller pnr p).2.waitingDB =
      s.waitingDB ++ [⟨caller.id, p, (s.waitingDB.length : Int) + 1⟩] ∧
    (terminal_book_ticket s caller pnr p).2.dbTrain = s.dbTrain ∧
    (terminal_book_ticket s caller pnr p).2.bookings = s.bookings := by
  have hnotpos : ¬ 0 < db.available_seats := by omega
  have hql : (q.length : Int) + 1 = (s.waitingDB.length : Int) + 1 := by
    rw [hlen]
  refine ⟨?_, ?_, ?_, ?_, ?_, ?_, ?_, ?_, ?_, ?_⟩ <;>
    simp [create_booking, terminal_book_ticket, hdb, hmem, hnotpos, hq, hql]

/-- C7 witness: reserving on sA9 (0 available seats, 1-entry waitlist)
waitlists user 3 at position 2 in both front ends. -/
theorem C7_witness :
    (create_booking sA9 u3 103 pC).1 = .waiting ((sA9.waitingDB.length : Int) + 1) ∧
    (create_booking sA9 u3 103 pC).2.waitingDB =
      sA9.waitingDB ++ [⟨u3.id, pC, (sA9.waitingDB.length : Int) + 1⟩] ∧
    (create_booking sA9 u3 103 pC).2.memQueue =
      some ([w2] ++ [⟨u3.id, pC, (sA9.waitingDB.length : Int) + 1⟩]) ∧
    (create_booking sA9 u3 103 pC).2.dbTrain = sA9.dbTrain ∧
    (create_booking sA9 u3 103 pC).2.memTrain = sA9.memTrain ∧
    (create_booking sA9 u3 103 pC).2.bookings = sA9.bookings ∧
    (terminal_book_ticket sA9 u3 103 pC).1 = .waiting ((sA9.waitingDB.length : Int) + 1) ∧
    (terminal_book_ticket sA9 u3 103 pC).2.waitingDB =
      sA9.waitingDB ++ [⟨u3.id, pC, (sA9.waitingDB.length : Int) + 1⟩] ∧
    (terminal_book_ticket sA9 u3 103 pC).2.dbTrain = sA9.dbTrain ∧
    (terminal_book_ticket sA9 u3 103 pC).2.bookings = sA9.bookings :=
  C7_reserve_full_train_waitlists sA9 u3 103 pC ⟨2, 0⟩ ⟨2, 0⟩ [w2] rfl rfl rfl rfl rfl

/-- C9 counterexample: sA9 and sB9 have identical durable state (same
trains row, bookings, waiting_list) but different Mirror Index contents
(in-memory queue [w2] vs stale empty queue); the same Release call takes
different branches — promotion vs increment — producing different
outcomes and different durable trains rows.  The decision is read from
waiting_queues (server.py line 616), not from durable storage. -/
theorem C9_counterexample_mirror_decides :
    durable sA9 = durable sB9 ∧
    sA9.memQueue ≠ sB9.memQueue ∧
    (cancel_booking sA9 u1 11 50).1 ≠ (cancel_booking sB9 u1 11 50).1 ∧
    (cancel_booking sA9 u1 11 50).2.dbTrain ≠ (cancel_booking sB9 u1 11 50).2.dbTrain := by
  refine ⟨rfl, by decide, by decide, by decide⟩

/-- C9 amended: only Reserve's capacity comparison is durable-only — when
the train is present in the Mirror Index on both sides and the durable
available_seats is positive, two Reserve calls with identical durable
state produce the same outcome and the same durable effect whatever the
rest of the mirror holds.  (Release's promote-vs-increment decision, the
Reserve existence check and the waitlist position all consult the mirror,
as the counterexample shows.) -/
theorem C9_amended_reserve_confirm_durable_only (s1 s2 : State) (caller : User)
    (pnr : Nat) (p : Passenger) (db m1 m2 : TrainRec)
    (h1 : s1.dbTrain = some db) (h2 : s2.dbTrain = some db)
    (hb : s1.bookings = s2.bookings) (hw : s1.waitingDB = s2.waitingDB)
    (hm1 : s1.memTrain = some m1) (hm2 : s2.memTrain = some m2)
    (havail : 0 < db.available_seats) :
    (create_booking s1 caller pnr p).1 = (create_booking s2 caller pnr p).1 ∧
    durable (create_booking s1 caller pnr p).2 = durable (create_booking s2 caller pnr p).2 := by
  constructor <;>
    simp [create_booking, durable, h1, h2, hb, hw, hm1, hm2, havail]

/-- C9 amended witness: two states agreeing durably (full 2-seat train
made 1-available) but with different mirror queues give the same Confirmed
outcome and durable effect. -/
theorem C9_amended_witness :
    (create_booking ⟨some ⟨2, 1⟩, [bk1], [], some ⟨2, 1⟩, some [], []⟩ u3 103 pC).1 =
      (create_booking ⟨some ⟨2, 1⟩, [bk1], [], some ⟨9, 9⟩, some [w2], [⟨77, pA, 1⟩]⟩ u3 103 pC).1 ∧
    durable (create_booking ⟨some ⟨2, 1⟩, [bk1], [], some ⟨2, 1⟩, some [], []⟩ u3 103 pC).2 =
      durable (create_booking ⟨some ⟨2, 1⟩, [bk1], [], some ⟨9, 9⟩, some [w2], [⟨77, pA, 1⟩]⟩ u3 103 pC).2 :=
  C9_amended_reserve_confirm_durable_only
    ⟨some ⟨2, 1⟩, [bk1], [], some ⟨2, 1⟩, some [], []⟩
    ⟨some ⟨2, 1⟩, [bk1], [], some ⟨9, 9⟩, some [w2], [⟨77, pA, 1⟩]⟩
    u3 103 pC ⟨2, 1⟩ ⟨2, 1⟩ ⟨9, 9⟩ rfl rfl rfl rfl rfl rfl (by decide)

/-- C10: a cancellation by a caller who neither owns the booking nor has
the admin role fails — with 403 Not-authorized on the server path, and
with booking-not-found on the terminal path (whose query is scoped to the
caller's own bookings) — and leaves the entire state unchanged. -/
theorem C10_cancel_owner_or_admin_only (s : State) (caller : User) (pnr newPnr : Nat)
    (b : Booking)
    (hfind : s.bookings.find? (fun x => x.pnr = pnr) = some b)
    (hneq : b.user_id ≠ caller.id)
    (hrole : caller.role ≠ "admin")
    (hall : ∀ x ∈ s.bookings, x.pnr = pnr → x.user_id ≠ caller.id) :
    cancel_booking s caller pnr newPnr = (.err .notAuthorized, s) ∧
    terminal_cancel_ticket s caller pnr newPnr = (.err .bookingNotFound, s) := by
  constructor
  · simp [cancel_booking, hfind, hneq, hrole]
  · have hnone : s.bookings.find?
        (fun x => decide (x.pnr = pnr) && decide (x.user_id = caller.id)) = none := by
      rw [List.find?_eq_none]
      intro x hx
      simp only [Bool.and_eq_true, decide_eq_true_eq, not_and]
      intro hp
      exact hall x hx hp
    simp [terminal_cancel_ticket, hnone]

/-- C10 witness: user 3 (not an admin, not the owner) cannot cancel
user 1's booking on sRel through either front end; the state is unchanged. -/
theorem C10_witness :
    cancel_booking sRel u3 11 50 = (.err .notAuthorized, sRel) ∧
    terminal_cancel_ticket sRel u3 11 50 = (.err .bookingNotFound, sRel) :=
  C10_cancel_owner_or_admin_only sRel u3 11 50 bk1 rfl (by decide) (by decide)
    (by decide)

/-- One Reserve preserves the reachable-state invariant. -/
theorem C8Inv_reserve (s : State) (c : User) (pnr : Nat) (p : Passenger)
    (h : C8Inv s) : C8Inv (create_booking s c pnr p).2 := by
  obtain ⟨db, q, hdb, hq, hlen, hpos, himp⟩ := h
  cases hmem : s.memTrain with
  | none =>
    simp only [create_booking, hmem]
    exact ⟨db, q, hdb, hq, hlen, hpos, himp⟩
  | some memT =>
    by_cases hav : 0 < db.available_seats
    · have key : (create_booking s c pnr p).2 =
          { s with
              bookings := s.bookings ++
                [⟨pnr, c.id, p, db.total_seats - db.available_seats + 1, "confirmed"⟩],
              dbTrain := some { db with available_seats := db.available_seats - 1 },
              memTrain := some { memT with available_seats := memT.available_seats - 1 },
              cache := s.cache ++ [⟨pnr, p, db.total_seats - db.available_seats + 1⟩] } := by
        simp [create_booking, hmem, hdb, hav]
      rw [key]
      exact ⟨{ db with available_seats := db.available_seats - 1 }, q, rfl, hq, hlen,
        hpos, fun h' => himp (by omega)⟩
    · have key : (create_booking s c pnr p).2 =
          { s with
              memQueue := some (q ++ [⟨c.id, p, (q.length : Int) + 1⟩]),
              waitingDB := s.waitingDB ++ [⟨c.id, p, (q.length : Int) + 1⟩] } := by
        simp [create_booking, hmem, hdb, hav, hq]
      rw [key]
      refine ⟨db, q ++ [⟨c.id, p, (q.length : Int) + 1⟩], hdb, rfl, by simp [hlen], ?_, ?_⟩
      · exact posFrom_append hpos _ (by simp [hlen]; omega)
      · intro h'; exact absurd h' hav

/-- One Release preserves the reachable-state invariant. -/
theorem C8Inv_release (s : State) (c : User) (pnr newPnr : Nat)
    (h : C8Inv s) : C8Inv (cancel_booking s c pnr newPnr).2 := by
  obtain ⟨db, q, hdb, hq, hlen, hpos, himp⟩ := h
  cases hfind : s.bookings.find? (fun b => b.pnr = pnr) with
  | none =>
    simp only [cancel_booking, hfind]
    exact ⟨db, q, hdb, hq, hlen, hpos, himp⟩
  | some b =>
    by_cases hc1 : b.user_id ≠ c.id ∧ c.role ≠ "admin"
    · have key : (cancel_booking s c pnr newPnr).2 = s := by
        simp [cancel_booking, hfind, hc1]
      rw [key]; exact ⟨db, q, hdb, hq, hlen, hpos, himp⟩
    · by_cases hc2 : b.booking_status = "cancelled"
      · have key : (cancel_booking s c pnr newPnr).2 = s := by
          simp [cancel_booking, hfind, hc1, hc2]
        rw [key]; exact ⟨db, q, hdb, hq, hlen, hpos, himp⟩
      · cases q with
        | nil =>
          have hwnil : s.waitingDB = [] := by
            have : s.waitingDB.length = 0 := by simpa using hlen.symm
            exact List.length_eq_zero.mp this
          have key : (cancel_booking s c pnr newPnr).2 =
              { s with
                  bookings := setCancelled pnr s.bookings,
                  cache := s.cache.filter (fun x => x.pnr ≠ pnr),
                  dbTrain := some { db with available_seats := db.available_seats + 1 },
                  memTrain := s.memTrain.map
                    (fun t => { t with available_seats := t.available_seats + 1 }) } := by
            simp [cancel_booking, hfind, hc1, hc2, hq, hdb]
          rw [key]
          exact ⟨{ db with available_seats := db.available_seats + 1 }, [], rfl, hq, by simp [hwnil],
            by simp [hwnil, posFrom], fun _ => hwnil⟩
        | cons w rest =>
          obtain ⟨w0, ws0, hwdb⟩ : ∃ w0 ws0, s.waitingDB = w0 :: ws0 := by
            cases hcase : s.waitingDB with
            | nil => rw [hcase] at hlen; simp at hlen
            | cons a l => exact ⟨a, l, rfl⟩
          have key : (cancel_booking s c pnr newPnr).2 =
              { s with
                  bookings := setCancelled pnr s.bookings ++
                    [⟨newPnr, w.user_id, w.passenger, b.seat_number, "confirmed"⟩],
                  cache := s.cache.filter (fun x => x.pnr ≠ pnr) ++
                    [⟨newPnr, w.passenger, b.seat_number⟩],
                  memQueue := some rest,
                  waitingDB := renumber s.waitingDB } := by
            simp [cancel_booking, hfind, hc1, hc2, hq]
          rw [key]
          have hpos0 : posFrom 1 (w0 :: ws0) := by rw [hwdb] at hpos; exact hpos
          have hren : renumber s.waitingDB =
              ws0.map (fun x => { x with position := x.position - 1 }) := by
            rw [hwdb]; exact renumber_cons hpos0
          refine ⟨db, rest, hdb, rfl, ?_, ?_, ?_⟩
          · rw [hren]
            have : (w :: rest).length = (w0 :: ws0).length := by
              rw [← hwdb]; exact hlen
            simpa using this
          · rw [hren]
            exact posFrom_map_sub hpos0.2
          · intro h'
            exact absurd (himp h') (by rw [hwdb]; simp)

/-- The invariant propagates along any operation sequence. -/
theorem C8Inv_runOps (ops : List Op) : ∀ s : State, C8Inv s → C8Inv (runOps s ops) := by
  induction ops with
  | nil => intro s h; exact h
  | cons op rest ih =>
    intro s h
    have hstep : C8Inv (stepOp s op) := by
      cases op with
      | reserve c pnr p => exact C8Inv_reserve s c pnr p h
      | release c pnr newPnr => exact C8Inv_release s c pnr newPnr h
    exact ih (stepOp s op) hstep

/-- C8: from a fresh train (empty waitlist, available_seats = total_seats),
after any sequence of server-side Reserve and Release calls, positive
available_seats forces an empty waitlist — both the durable waiting_list
table and the in-memory queue — purely as a consequence of the branch
structure of the two operations. -/
theorem C8_available_implies_empty_waitlist (total : Int) (ops : List Op)
    (db : TrainRec)
    (hdb : (runOps (freshTrain total) ops).dbTrain = some db)
    (hav : 0 < db.available_seats) :
    (runOps (freshTrain total) ops).waitingDB = [] ∧
    (runOps (freshTrain total) ops).memQueue = some [] := by
  have hfresh : C8Inv (freshTrain total) :=
    ⟨⟨total, total⟩, [], rfl, rfl, rfl, trivial, fun _ => rfl⟩
  obtain ⟨db', q, hdb', hq, hlen, hpos, himp⟩ := C8Inv_runOps ops (freshTrain total) hfresh
  rw [hdb] at hdb'
  injection hdb' with hdb''
  subst hdb''
  have hnil := himp hav
  refine ⟨hnil, ?_⟩
  rw [hq]
  have : q.length = 0 := by rw [hlen, hnil]; rfl
  rw [List.length_eq_zero.mp this]

/-- C8 witness: one Reserve on a fresh 2-seat train leaves 1 available
seat and, as the theorem forces, an empty waitlist on both levels. -/
theorem C8_witness :
    (runOps (freshTrain 2) [.reserve u1 101 pA]).waitingDB = [] ∧
    (runOps (freshTrain 2) [.reserve u1 101 pA]).memQueue = some [] :=
  C8_available_implies_empty_waitlist 2 [.reserve u1 101 pA] ⟨2, 1⟩ rfl (by decide)

end Railway
